import Mathlib

/-!
Shallow embedding of the hypowertools overlay (src/network_widget.rs and
src/workspace_switcher.rs).  External commands (`nmcli`, `hyprctl`, `find`)
and filesystem reads are modelled as explicit inputs: a failing command or a
non-UTF-8 output is `none`, a succeeding one is `some` of its stdout split
into lines.  Machine integers (`i32`) are modelled as `Int` with the i32
range enforced where the source parses them.
-/

namespace Hypo

/-- Substring test on character lists, mirroring Rust `str::contains`. -/
def isSub (pat : List Char) : List Char → Bool
  | [] => pat.isEmpty
  | c :: rest => pat.isPrefixOf (c :: rest) || isSub pat rest

/-- `containsSub s pat` mirrors Rust `s.contains(pat)` (substring containment). -/
def containsSub (s pat : String) : Bool :=
  isSub pat.toList s.toList

/-- Worker for `splitChar`, accumulating the current chunk reversed. -/
def splitCharAux (sep : Char) : List Char → List Char → List String
  | [], acc => [String.mk acc.reverse]
  | c :: rest, acc =>
    if c == sep then String.mk acc.reverse :: splitCharAux sep rest []
    else splitCharAux sep rest (c :: acc)

/-- Mirrors Rust `s.split(sep)` for a single separator character:
`"" ↦ [""]`, `"a:" ↦ ["a", ""]`. -/
def splitChar (s : String) (sep : Char) : List String :=
  splitCharAux sep s.toList []

/-- Mirrors Rust `str::to_lowercase` (modelled for ASCII case folding). -/
def toLowerStr (s : String) : String :=
  String.mk (s.toList.map Char.toLower)

/-- Mirrors Rust `str::starts_with`. -/
def startsWithStr (s pre : String) : Bool :=
  pre.toList.isPrefixOf s.toList

/-- Mirrors Rust `str::ends_with`. -/
def endsWithStr (s suf : String) : Bool :=
  suf.toList.isSuffixOf s.toList

/-- Decimal digit parse of a character list: `none` unless non-empty and all
digits. -/
def digitsToNat? (cs : List Char) : Option Nat :=
  if cs.isEmpty || !cs.all Char.isDigit then none
  else some (cs.foldl (fun acc c => acc * 10 + (c.toNat - 48)) 0)

/-- Mirrors Rust `str::parse::<i32>()`: optional sign, decimal digits, i32
range (Rust fails on overflow during accumulation; the final acceptance
predicate is the same as computing the exact value and range-checking it). -/
def parseI32 (s : String) : Option Int :=
  let core : Option Int :=
    match s.toList with
    | '+' :: rest => (digitsToNat? rest).map Int.ofNat
    | '-' :: rest => (digitsToNat? rest).map fun n => -(Int.ofNat n)
    | cs => (digitsToNat? cs).map Int.ofNat
  match core with
  | some n => if -2147483648 ≤ n ∧ n ≤ 2147483647 then some n else none
  | none => none

/-- Fuelled worker for `trimStartMatches`. -/
def trimStartAux : Nat → List Char → List Char → List Char
  | 0, _, s => s
  | Nat.succ fuel, pre, s =>
    if !pre.isEmpty && pre.isPrefixOf s then trimStartAux fuel pre (s.drop pre.length)
    else s

/-- Mirrors Rust `str::trim_start_matches` (repeatedly strips the prefix). -/
def trimStartMatches (s pre : String) : String :=
  String.mk (trimStartAux s.length pre.toList s.toList)

/-- `WifiNetwork` from src/network_widget.rs. -/
structure WifiNetwork where
  ssid : String
  signal_strength : Int
  security : String
  is_known : Bool
deriving DecidableEq, Repr

/-- `ConnectionState` from src/network_widget.rs. -/
inductive ConnectionState where
  | Disconnected : ConnectionState
  | Connected : String → ConnectionState
deriving DecidableEq, Repr

/-- The fields of `NetworkWidget` read and written by `update`/`show`. -/
structure NetworkState where
  connection_state : ConnectionState
  known_networks : List WifiNetwork
  available_networks : List WifiNetwork
deriving DecidableEq, Repr

/-- Descending-signal order used by `sort_by(|a, b| b.signal_strength.cmp(&a.signal_strength))`. -/
def sigGE (a b : WifiNetwork) : Prop :=
  b.signal_strength ≤ a.signal_strength

instance : DecidableRel sigGE := fun a b =>
  inferInstanceAs (Decidable (b.signal_strength ≤ a.signal_strength))

instance : IsTotal WifiNetwork sigGE :=
  ⟨fun a b => (le_total b.signal_strength a.signal_strength).imp id id⟩

instance : IsTrans WifiNetwork sigGE :=
  ⟨fun _ _ _ h h' => le_trans h' h⟩

namespace NetworkWidget

/-- One line of `nmcli -t -f NAME,UUID connection show` processed by `get_networks`. -/
def knownStep (acc : List WifiNetwork) (line : String) : List WifiNetwork :=
  let name := (splitChar line ':').getD 0 ""
  if !containsSub name "ethernet" && !containsSub name "loopback" then
    acc ++ [{ ssid := name, signal_strength := 0, security := "", is_known := true }]
  else acc

/-- The known-profile pass of `get_networks` over the command's stdout lines. -/
def knownFromLines (lines : List String) : List WifiNetwork :=
  lines.foldl knownStep []

/-- Mirrors `known.iter_mut().find(|n| n.ssid == ssid)` followed by the field updates. -/
def updateFirst (l : List WifiNetwork) (ssid : String) (signal : Int) (security : String) :
    List WifiNetwork :=
  match l with
  | [] => []
  | n :: rest =>
    if n.ssid == ssid then { n with signal_strength := signal, security := security } :: rest
    else n :: updateFirst rest ssid signal security

/-- One line of `nmcli -t -f SSID,SIGNAL,SECURITY,IN-USE device wifi list`
processed by `get_networks`, threading the (known, available) accumulators. -/
def scanStep (st : List WifiNetwork × List WifiNetwork) (line : String) :
    List WifiNetwork × List WifiNetwork :=
  let known := st.1
  let available := st.2
  let parts := splitChar line ':'
  if 4 ≤ parts.length then
    let ssid := parts.getD 0 ""
    let signal := (parseI32 (parts.getD 1 "")).getD 0
    let security := parts.getD 2 ""
    if ssid.isEmpty then (known, available)
    else
      let is_known := known.any fun n => n.ssid == ssid
      if is_known then
        (updateFirst known ssid signal security, available)
      else
        (known, available ++ [{ ssid := ssid, signal_strength := signal,
                                security := security, is_known := false }])
  else (known, available)

/-- `NetworkWidget::get_networks`.  Each command's output is `none` on launch
or UTF-8 failure, otherwise `some` of its stdout lines; a failed command
contributes nothing, exactly as the source's `if let Ok(..)` skips its loop. -/
def get_networks (kOut sOut : Option (List String)) :
    List WifiNetwork × List WifiNetwork :=
  let known0 := match kOut with
    | some ls => knownFromLines ls
    | none => []
  let st := match sOut with
    | some ls => ls.foldl scanStep (known0, [])
    | none => (known0, [])
  (List.insertionSort sigGE st.1, List.insertionSort sigGE st.2)

/-- The line scan inside `NetworkWidget::get_current_network`. -/
def firstActive : List String → Option String
  | [] => none
  | line :: rest =>
    let parts := splitChar line ':'
    if 2 ≤ parts.length && parts.getD 0 "" == "yes" then some (parts.getD 1 "")
    else firstActive rest

/-- `NetworkWidget::get_current_network`: `none` when the status command fails
to launch or yields non-UTF-8 output, or when no row has `ACTIVE=yes`. -/
def get_current_network (statusOut : Option (List String)) : Option String :=
  match statusOut with
  | none => none
  | some lines => firstActive lines

/-- The `connection_changed` computation at the top of `NetworkWidget::update`. -/
def connectionChanged (cs : ConnectionState) (current : Option String) : Bool :=
  match cs, current with
  | ConnectionState.Connected old, some new_ => old != new_
  | ConnectionState.Connected _, none => true
  | ConnectionState.Disconnected, some _ => true
  | _, _ => false

/-- The connection-state assignment in `NetworkWidget::update`. -/
def connectionStateOf (current : Option String) : ConnectionState :=
  match current with
  | some c => ConnectionState.Connected c
  | none => ConnectionState.Disconnected

/-- `NetworkWidget::update`, with the three external queries as inputs:
the status query result and the two `get_networks` command outputs. -/
def update (st : NetworkState) (current : Option String)
    (kOut sOut : Option (List String)) : NetworkState :=
  if connectionChanged st.connection_state current ||
      (st.known_networks.isEmpty && st.available_networks.isEmpty) then
    { connection_state := connectionStateOf current,
      known_networks := (get_networks kOut sOut).1,
      available_networks := (get_networks kOut sOut).2 }
  else
    { st with connection_state := connectionStateOf current }

/-- The `current_network` value computed at the top of `NetworkWidget::show`. -/
def currentNetworkOf (cs : ConnectionState) : Option String :=
  match cs with
  | ConnectionState.Connected c => some c
  | ConnectionState.Disconnected => none

/-- The connected-network pick in `show`: `find` on known networks,
`or_else` the same `find` on available networks. -/
def connectedPick (st : NetworkState) (current : String) : Option WifiNetwork :=
  match st.known_networks.find? (fun n => n.ssid == current && decide (0 < n.signal_strength)) with
  | some n => some n
  | none =>
    st.available_networks.find? (fun n => n.ssid == current && decide (0 < n.signal_strength))

/-- The known/available passes of `show`: keep records whose ssid differs from
the connected one and whose signal is positive, flagged not-connected. -/
def displayFilter (current? : Option String) (l : List WifiNetwork) :
    List (WifiNetwork × Bool) :=
  (l.filter fun n => decide (some n.ssid ≠ current?) && decide (0 < n.signal_strength)).map
    fun n => (n, false)

/-- The `networks_to_show` entries added by the connected-network block of
`show`: the found record flagged `true`, or nothing. -/
def connectedHead (st : NetworkState) : List (WifiNetwork × Bool) :=
  match currentNetworkOf st.connection_state with
  | some current =>
    match connectedPick st current with
    | some n => [(n, true)]
    | none => []
  | none => []

/-- The `networks_to_show` list built by `NetworkWidget::show`:
connected network first (if found with positive signal), then the filtered
known networks, then the filtered available networks. -/
def networksToShow (st : NetworkState) : List (WifiNetwork × Bool) :=
  connectedHead st ++
    displayFilter (currentNetworkOf st.connection_state) st.known_networks ++
    displayFilter (currentNetworkOf st.connection_state) st.available_networks

end NetworkWidget

/-- `Workspace` from src/workspace_switcher.rs. -/
structure Workspace where
  id : Int
  name : String
deriving DecidableEq, Repr

/-- Ascending-id order used by `workspaces.sort_by_key(|w| w.id)`. -/
def wsLE (a b : Workspace) : Prop :=
  a.id ≤ b.id

instance : DecidableRel wsLE := fun a b =>
  inferInstanceAs (Decidable (a.id ≤ b.id))

instance : IsTotal Workspace wsLE :=
  ⟨fun a b => (le_total a.id b.id).imp id id⟩

instance : IsTrans Workspace wsLE :=
  ⟨fun _ _ _ h h' => le_trans h h'⟩

/-- The fields of `WorkspaceSwitcher` read and written by `update`. -/
structure SwitcherState where
  current_workspace : Int
  workspaces : List Workspace
deriving DecidableEq, Repr

namespace WorkspaceSwitcher

/-- `WorkspaceSwitcher::get_workspaces`.  The poll input is `none` when the
command fails to launch, its output is not UTF-8, or the JSON does not parse
as a workspace array; all three paths fall through to `Vec::new()`.  Rust's
`sort_by_key` is a stable ascending sort, embedded as `insertionSort wsLE`. -/
def get_workspaces (poll : Option (List Workspace)) : List Workspace :=
  match poll with
  | some ws => List.insertionSort wsLE ws
  | none => []

/-- `WorkspaceSwitcher::get_current_workspace`: the parsed workspace's id,
or the fallback `1` on any failure of the command/UTF-8/JSON pipeline. -/
def get_current_workspace (poll : Option Workspace) : Int :=
  match poll with
  | some w => w.id
  | none => 1

/-- `WorkspaceSwitcher::update`, with the two external queries as inputs. -/
def update (_st : SwitcherState) (wsPoll : Option (List Workspace))
    (curPoll : Option Workspace) : SwitcherState :=
  { current_workspace := get_current_workspace curPoll,
    workspaces := get_workspaces wsPoll }

end WorkspaceSwitcher

/-! ## Icon cache (src/workspace_switcher.rs, `IconCache`)

The environment `Env` packages every external effect `get_or_load` performs:
tilde expansion, `Path::exists` probes, the `find` command, file reads, and
the two rasterizers.  `loadIcon` returns the resolved texture, the number of
environment accesses performed (probes + command launches + reads +
rasterizations), and whether control reached the cache-insertion point at the
end of `get_or_load` (the Discord flatpak fast path and a failing `find`
pipeline return early, bypassing the insert). -/

/-- The external world seen by `IconCache::get_or_load`. -/
structure Env where
  tilde : String → String
  pathExists : String → Bool
  fsFind : Option (List String)
  readFile : String → Option (List String)
  svgLoad : String → Option Nat
  pngLoad : String → Option Nat

namespace IconCache

/-- The special-case class alias table at the top of `get_or_load`. -/
def aliasOf (class_name : String) : String :=
  if class_name == "Cursor" then "com.cursor.Cursor"
  else if class_name == "discord" then "com.discordapp.Discord"
  else if class_name == "Discord" then "com.discordapp.Discord"
  else class_name

/-- The fixed Discord flatpak probe list. -/
def flatpak_paths : List String :=
  ["/var/lib/flatpak/app/com.discordapp.Discord/current/active/files/discord/discord.png",
   "/var/lib/flatpak/app/com.discordapp.Discord/current/active/export/share/icons/hicolor/256x256/apps/com.discordapp.Discord.png",
   "~/.local/share/flatpak/app/com.discordapp.Discord/current/active/files/discord/discord.png"]

/-- The desktop-file match test: some `Name=`/`Exec=` line case-insensitively
contains the lookup class or the original class name. -/
def fileMatches (lookupC orig : String) (lines : List String) : Bool :=
  lines.any fun line =>
    (startsWithStr line "Name=" || startsWithStr line "Exec=") &&
    (containsSub (toLowerStr line) (toLowerStr lookupC) ||
     containsSub (toLowerStr line) (toLowerStr orig))

/-- First `Icon=` line of a desktop file, with the prefix trimmed. -/
def firstIcon (lines : List String) : Option String :=
  (lines.find? fun l => startsWithStr l "Icon=").map fun l => trimStartMatches l "Icon="

/-- The desktop-entry scan of `get_or_load` over the read results of the
enumerated files, in enumeration order.  The source's `'desktop_search` loop
has no `break`, so a later matching file with an `Icon=` line overwrites the
icon name found in an earlier one. -/
def desktopSearch (lookupC orig : String) (files : List (Option (List String))) :
    Option String :=
  files.foldl
    (fun found content? =>
      match content? with
      | none => found
      | some lines =>
        if fileMatches lookupC orig lines then
          match firstIcon lines with
          | some icon => some icon
          | none => found
        else found)
    none

/-- The same scan driven by the environment, counting one read per file
(the source attempts `fs::read_to_string` on every enumerated file). -/
def desktopScan (env : Env) (lookupC orig : String) (paths : List String) :
    Option String × Nat :=
  (desktopSearch lookupC orig (paths.map fun p => env.readFile (env.tilde p)), paths.length)

/-- The fixed `icon_theme_paths` array. -/
def icon_theme_paths : List String :=
  ["/var/lib/flatpak/exports/share/icons/hicolor",
   "~/.local/share/flatpak/exports/share/icons/hicolor",
   "/usr/share/icons/hicolor",
   "/usr/share/icons/Papirus",
   "/usr/share/icons/breeze",
   "/usr/share/icons/default",
   "~/.local/share/icons"]

/-- The fixed `sizes` array. -/
def sizes : List String :=
  ["256x256", "128x128", "64x64", "48x48", "32x32", "24x24", "16x16", "scalable"]

/-- The fixed `categories` array. -/
def categories : List String :=
  ["apps", "devices", "places", "status"]

/-- Mirrors Rust `icon_name.replace('.', "-")`. -/
def dotToDash (s : String) : String :=
  String.mk (s.toList.map fun c => if c == '.' then '-' else c)

/-- The `icon_variations` array built from the icon name. -/
def icon_variations (icon_name : String) : List String :=
  [icon_name,
   toLowerStr icon_name,
   dotToDash icon_name,
   toLowerStr (dotToDash icon_name),
   "com.discordapp." ++ icon_name,
   icon_name ++ ".png"]

/-- The theme-search candidate paths in the source's nested loop order:
theme outer, size, category, variation, then the png/svg pair. -/
def themeCandidates (env : Env) (icon_name : String) : List String :=
  icon_theme_paths.flatMap fun theme =>
    let etp := env.tilde theme
    sizes.flatMap fun size =>
      categories.flatMap fun cat =>
        (icon_variations icon_name).flatMap fun v =>
          [etp ++ "/" ++ size ++ "/" ++ cat ++ "/" ++ v ++ ".png",
           etp ++ "/" ++ size ++ "/" ++ cat ++ "/" ++ v ++ ".svg"]

/-- The pixmap/direct-path fallback candidates, tilde-expanded at probe time. -/
def fallbackCandidates (env : Env) (icon_name : String) : List String :=
  [env.tilde ("/usr/share/pixmaps/" ++ icon_name ++ ".png"),
   env.tilde ("/usr/share/pixmaps/" ++ icon_name ++ ".svg"),
   env.tilde ("/usr/share/pixmaps/" ++ icon_name ++ ".xpm"),
   env.tilde icon_name]

/-- Probe a candidate list in order; returns the first existing path and the
number of `Path::exists` probes performed. -/
def probeFirst (env : Env) : List String → Option String × Nat
  | [] => (none, 0)
  | p :: rest =>
    if env.pathExists p then (some p, 1)
    else
      let rk := probeFirst env rest
      (rk.1, rk.2 + 1)

/-- The Discord flatpak fast path: probe each path; on the first hit, load it
as PNG and return early (`some` result).  Counts probes plus the one
rasterization on a hit. -/
def flatpakProbe (env : Env) : List String → Option (Option Nat) × Nat
  | [] => (none, 0)
  | p :: rest =>
    if env.pathExists (env.tilde p) then (some (env.pngLoad (env.tilde p)), 2)
    else
      let rk := flatpakProbe env rest
      (rk.1, rk.2 + 1)

/-- Lines 142–285 of `IconCache::get_or_load`: everything between the cache
lookup and the cache insert.  Returns (icon, access count, reached-insert?). -/
def loadIcon (env : Env) (class_name : String) : Option Nat × Nat × Bool :=
  let lookup_class := aliasOf class_name
  let fast :=
    if lookup_class == "com.discordapp.Discord" then flatpakProbe env flatpak_paths
    else (none, 0)
  match fast.1 with
  | some tex => (tex, fast.2, false)
  | none =>
    let k1 := fast.2 + 1
    match env.fsFind with
    | none => (none, k1, false)
    | some dpaths =>
      let scan := desktopScan env lookup_class class_name dpaths
      let icon_name := scan.1.getD lookup_class
      let themed := probeFirst env (themeCandidates env icon_name)
      let pathAndCost :=
        match themed.1 with
        | some p => ((some p : Option String), 0)
        | none => probeFirst env (fallbackCandidates env icon_name)
      let iconAndCost :=
        match pathAndCost.1 with
        | some p =>
          ((if endsWithStr p ".svg" then env.svgLoad p else env.pngLoad p), 1)
        | none => ((none : Option Nat), 0)
      (iconAndCost.1, k1 + scan.2 + themed.2 + pathAndCost.2 + iconAndCost.2, true)

/-- `IconCache::get_or_load`: the cache is the association list of inserted
entries (the `HashMap` keyed by the raw class name); a hit returns the stored
value with zero environment accesses. -/
def get_or_load (env : Env) (cache : List (String × Option Nat)) (class_name : String) :
    Option Nat × List (String × Option Nat) × Nat :=
  match cache.lookup class_name with
  | some cached => (cached, cache, 0)
  | none =>
    let r := loadIcon env class_name
    (r.1, if r.2.2 then (class_name, r.1) :: cache else cache, r.2.1)

/-- A probe environment in which the first Discord flatpak path exists and
loads as a PNG; everything else is absent. -/
def envDiscordFast : Env :=
  { tilde := fun s => s,
    pathExists := fun p =>
      p == "/var/lib/flatpak/app/com.discordapp.Discord/current/active/files/discord/discord.png",
    fsFind := some [],
    readFile := fun _ => none,
    svgLoad := fun _ => none,
    pngLoad := fun _ => some 1 }

/-- A probe environment with no desktop files and no icon files on disk. -/
def envNoIcon : Env :=
  { tilde := fun s => s,
    pathExists := fun _ => false,
    fsFind := some [],
    readFile := fun _ => none,
    svgLoad := fun _ => none,
    pngLoad := fun _ => none }

end IconCache

/-! ## Rasterization (src/workspace_switcher.rs, `load_svg` / `load_png`)

Arithmetic is modelled exactly over `ℚ` (the source uses `f32`); the claims
are about the scaling/centering formulas and the fixed output shape. -/

/-- The intrinsic size of a parsed SVG document (`rtree.size()`). -/
structure SvgTree where
  width : ℚ
  height : ℚ
deriving DecidableEq, Repr

/-- The pixel format of the produced textures (`from_rgba_unmultiplied`). -/
inductive PixelFormat where
  | RGBA8 : PixelFormat
deriving DecidableEq, Repr

/-- The output of `load_svg`: canvas shape plus the transform applied. -/
structure SvgRender where
  canvasWidth : Nat
  canvasHeight : Nat
  format : PixelFormat
  scale : ℚ
  translateX : ℚ
  translateY : ℚ
deriving DecidableEq, Repr

/-- The resampling filters of the `image` crate. -/
inductive FilterType where
  | Nearest : FilterType
  | Triangle : FilterType
  | CatmullRom : FilterType
  | Gaussian : FilterType
  | Lanczos3 : FilterType
deriving DecidableEq, Repr

/-- A decoded raster image (`image::open` result): its intrinsic size. -/
structure RasterImage where
  width : Nat
  height : Nat
deriving DecidableEq, Repr

/-- The output of `load_png`: output shape and the filter used. -/
structure PngRender where
  width : Nat
  height : Nat
  format : PixelFormat
  filter : FilterType
deriving DecidableEq, Repr

namespace IconCache

/-- `tiny_skia::Pixmap::new`: fails exactly on a zero dimension. -/
def pixmapNew (w h : Nat) : Option (Nat × Nat) :=
  if w = 0 || h = 0 then none else some (w, h)

/-- `IconCache::load_svg`.  Input: `none` = `fs::read` failed,
`some none` = `usvg::Tree::from_data` failed, `some (some t)` = parsed tree. -/
def load_svg (readData : Option (Option SvgTree)) : Option SvgRender :=
  match readData with
  | none => none
  | some none => none
  | some (some t) =>
    match pixmapNew 24 24 with
    | none => none
    | some wh =>
      let size : ℚ := 24
      let scale := min (size / t.width) (size / t.height)
      let translate_x := (size - t.width * scale) / 2
      let translate_y := (size - t.height * scale) / 2
      some { canvasWidth := wh.1, canvasHeight := wh.2, format := PixelFormat.RGBA8,
             scale := scale, translateX := translate_x, translateY := translate_y }

/-- `img.resize_exact(size, size, filter)` followed by `to_rgba8`. -/
def resize_exact (_img : RasterImage) (w h : Nat) (f : FilterType) : PngRender :=
  { width := w, height := h, format := PixelFormat.RGBA8, filter := f }

/-- `IconCache::load_png`.  Input: `none` = `image::open` failed. -/
def load_png (decoded : Option RasterImage) : Option PngRender :=
  match decoded with
  | none => none
  | some img => some (resize_exact img 24 24 FilterType.Lanczos3)

end IconCache

/-! ## Helper lemmas -/

/-- Anything returned by `connectedPick` comes from one of the two lists,
has the connected ssid, and has positive signal. -/
theorem connectedPick_spec {st : NetworkState} {current : String} {n : WifiNetwork}
    (h : NetworkWidget.connectedPick st current = some n) :
    (n ∈ st.known_networks ∨ n ∈ st.available_networks) ∧
      n.ssid = current ∧ 0 < n.signal_strength := by
  unfold NetworkWidget.connectedPick at h
  have extract : ∀ {l : List WifiNetwork},
      l.find? (fun m => m.ssid == current && decide (0 < m.signal_strength)) = some n →
      n ∈ l ∧ n.ssid = current ∧ 0 < n.signal_strength := by
    intro l hf
    have hp := List.find?_some hf
    have hm := List.mem_of_find?_eq_some hf
    simp only [Bool.and_eq_true, beq_iff_eq, decide_eq_true_eq] at hp
    exact ⟨hm, hp.1, hp.2⟩
  cases hk : st.known_networks.find?
      (fun m => m.ssid == current && decide (0 < m.signal_strength)) with
  | some m =>
    rw [hk] at h
    cases h
    rcases extract hk with ⟨hm, hs, hsig⟩
    exact ⟨Or.inl hm, hs, hsig⟩
  | none =>
    rw [hk] at h
    rcases extract h with ⟨hm, hs, hsig⟩
    exact ⟨Or.inr hm, hs, hsig⟩

/-- Every record in a `displayFilter` output has positive signal and an
ssid different from the connected one, and comes from the input list. -/
theorem mem_displayFilter {current? : Option String} {l : List WifiNetwork}
    {p : WifiNetwork × Bool} (h : p ∈ NetworkWidget.displayFilter current? l) :
    p.1 ∈ l ∧ some p.1.ssid ≠ current? ∧ 0 < p.1.signal_strength ∧ p.2 = false := by
  unfold NetworkWidget.displayFilter at h
  rcases List.mem_map.mp h with ⟨n, hn, rfl⟩
  rcases List.mem_filter.mp hn with ⟨hmem, hpred⟩
  simp only [Bool.and_eq_true, decide_eq_true_eq] at hpred
  exact ⟨hmem, hpred.1, hpred.2, rfl⟩

/-- Every record in the merged display list has strictly positive signal. -/
theorem mem_connectedHead {st : NetworkState} {p : WifiNetwork × Bool}
    (h : p ∈ NetworkWidget.connectedHead st) :
    ∃ current, NetworkWidget.currentNetworkOf st.connection_state = some current ∧
      NetworkWidget.connectedPick st current = some p.1 ∧ p.2 = true := by
  unfold NetworkWidget.connectedHead at h
  cases hcur : NetworkWidget.currentNetworkOf st.connection_state with
  | none => simp [hcur] at h
  | some current =>
    simp only [hcur] at h
    cases hpick : NetworkWidget.connectedPick st current with
    | none => simp [hpick] at h
    | some n =>
      simp only [hpick, List.mem_singleton] at h
      subst h
      exact ⟨current, rfl, hpick, rfl⟩

/-- Every record in the merged display list has strictly positive signal. -/
theorem mem_networksToShow_pos {st : NetworkState} {p : WifiNetwork × Bool}
    (h : p ∈ NetworkWidget.networksToShow st) : 0 < p.1.signal_strength := by
  unfold NetworkWidget.networksToShow at h
  rcases List.mem_append.mp h with h' | htail
  · rcases List.mem_append.mp h' with hhead | hk
    · rcases mem_connectedHead hhead with ⟨current, _, hpick, _⟩
      exact (connectedPick_spec hpick).2.2
    · exact (mem_displayFilter hk).2.2.1
  · exact (mem_displayFilter htail).2.2.1

/-- With an active connection, the filtered passes contribute no record
carrying the connected ssid. -/
theorem countP_displayFilter_connected (c : String) (l : List WifiNetwork) :
    List.countP (fun p => p.1.ssid == c) (NetworkWidget.displayFilter (some c) l) = 0 := by
  rw [List.countP_eq_zero]
  intro p hp
  rcases mem_displayFilter hp with ⟨_, hne, _, _⟩
  have hne' : p.1.ssid ≠ c := fun hEq => hne (by rw [hEq])
  simp [hne']

/-- `updateFirst` preserves the ssids of the list. -/
theorem updateFirst_map_ssid (l : List WifiNetwork) (s : String) (sig : Int) (sec : String) :
    (NetworkWidget.updateFirst l s sig sec).map WifiNetwork.ssid = l.map WifiNetwork.ssid := by
  induction l with
  | nil => rfl
  | cons n rest ih =>
    unfold NetworkWidget.updateFirst
    split
    · simp
    · simp [ih]

/-- One scan step preserves the available-list invariant: every available
record has a non-empty ssid, is flagged unknown, and matches no known ssid. -/
theorem scanStep_availInv (known available : List WifiNetwork) (line : String)
    (h : ∀ m ∈ available, m.ssid ≠ "" ∧ m.is_known = false ∧
      ∀ k ∈ known, k.ssid ≠ m.ssid) :
    ∀ m ∈ (NetworkWidget.scanStep (known, available) line).2,
      m.ssid ≠ "" ∧ m.is_known = false ∧
      ∀ k ∈ (NetworkWidget.scanStep (known, available) line).1, k.ssid ≠ m.ssid := by
  simp only [NetworkWidget.scanStep]
  by_cases hlen : 4 ≤ (splitChar line ':').length
  · rw [if_pos hlen]
    by_cases hempty : ((splitChar line ':').getD 0 "").isEmpty = true
    · rw [if_pos hempty]
      exact h
    · rw [if_neg hempty]
      by_cases hknown :
          (known.any fun n => n.ssid == (splitChar line ':').getD 0 "") = true
      · rw [if_pos hknown]
        intro m hmm
        rcases h m hmm with ⟨h1, h2, h3⟩
        refine ⟨h1, h2, ?_⟩
        intro k hk
        have hk2 : k.ssid ∈ (NetworkWidget.updateFirst known ((splitChar line ':').getD 0 "")
            ((parseI32 ((splitChar line ':').getD 1 "")).getD 0)
            ((splitChar line ':').getD 2 "")).map WifiNetwork.ssid :=
          List.mem_map_of_mem _ hk
        rw [updateFirst_map_ssid] at hk2
        rcases List.mem_map.mp hk2 with ⟨k', hk', hEq⟩
        rw [← hEq]
        exact h3 k' hk'
      · rw [if_neg hknown]
        intro m hmm
        rcases List.mem_append.mp hmm with hold | hnew
        · exact h m hold
        · rcases List.mem_singleton.mp hnew with rfl
          refine ⟨?_, rfl, ?_⟩
          · intro hEq
            have hEq' : (splitChar line ':').getD 0 "" = "" := hEq
            apply hempty
            rw [hEq']
            rfl
          · intro k hk hEq
            apply hknown
            exact List.any_eq_true.mpr ⟨k, hk, by simp [hEq]⟩
  · rw [if_neg hlen]
    exact h

/-- The available-list invariant is preserved across the whole scan fold. -/
theorem foldl_scanStep_availInv (lines : List String) (known available : List WifiNetwork)
    (h : ∀ m ∈ available, m.ssid ≠ "" ∧ m.is_known = false ∧
      ∀ k ∈ known, k.ssid ≠ m.ssid) :
    ∀ m ∈ (lines.foldl NetworkWidget.scanStep (known, available)).2,
      m.ssid ≠ "" ∧ m.is_known = false ∧
      ∀ k ∈ (lines.foldl NetworkWidget.scanStep (known, available)).1, k.ssid ≠ m.ssid := by
  induction lines generalizing known available with
  | nil => simpa using h
  | cons line rest ih =>
    rw [List.foldl_cons]
    have h' := scanStep_availInv known available line h
    rcases hstep : NetworkWidget.scanStep (known, available) line with ⟨k', a'⟩
    rw [hstep] at h'
    exact ih k' a' h'

/-! ## Claims -/

/-- C1, counterexample: a failing poll does not leave the previous state
unchanged — `update` on a state holding workspace 1 with active id 2, when
both queries fail, resets the state to the defaults (empty list, id 1). -/
theorem C1_counterexample :
    WorkspaceSwitcher.update
        { current_workspace := 2, workspaces := [{ id := 1, name := "I" }] } none none ≠
      { current_workspace := 2, workspaces := [{ id := 1, name := "I" }] } := by
  decide

/-- C1, amended: on a failed poll the state is replaced with defaults, not
retained.  A failed workspace/active-id poll yields the empty workspace list
and active id 1.  A failed network-status poll sets the connection state to
Disconnected; the known/available lists are kept only if the widget was
already Disconnected and at least one list is non-empty, and are re-fetched
(from the possibly-failing enumeration commands) if it was Connected. -/
theorem C1_failed_poll_defaults (wst : SwitcherState) (nst : NetworkState)
    (kOut sOut : Option (List String)) :
    WorkspaceSwitcher.update wst none none = { current_workspace := 1, workspaces := [] } ∧
    (NetworkWidget.update nst none kOut sOut).connection_state =
      ConnectionState.Disconnected ∧
    (nst.connection_state = ConnectionState.Disconnected →
      (nst.known_networks ≠ [] ∨ nst.available_networks ≠ []) →
      (NetworkWidget.update nst none kOut sOut).known_networks = nst.known_networks ∧
      (NetworkWidget.update nst none kOut sOut).available_networks =
        nst.available_networks) ∧
    (∀ c, nst.connection_state = ConnectionState.Connected c →
      (NetworkWidget.update nst none kOut sOut).known_networks =
        (NetworkWidget.get_networks kOut sOut).1 ∧
      (NetworkWidget.update nst none kOut sOut).available_networks =
        (NetworkWidget.get_networks kOut sOut).2) := by
  refine ⟨rfl, ?_, ?_, ?_⟩
  · unfold NetworkWidget.update
    split <;> rfl
  · intro hcs hne
    unfold NetworkWidget.update
    rw [hcs]
    have hfalse : (nst.known_networks.isEmpty && nst.available_networks.isEmpty) = false := by
      rcases hne with hk | ha
      · cases hknown : nst.known_networks with
        | nil => exact absurd hknown hk
        | cons x xs => simp [hknown]
      · cases havail : nst.available_networks with
        | nil => exact absurd havail ha
        | cons x xs => simp [havail]
    simp [hfalse, NetworkWidget.connectionChanged]
  · intro c hcs
    unfold NetworkWidget.update
    rw [hcs]
    simp [NetworkWidget.connectionChanged]

/-- C1 witness: the amended theorem applied to a concrete state with a
non-empty known list while disconnected. -/
theorem C1_failed_poll_defaults_witness :
    (NetworkWidget.update
        { connection_state := ConnectionState.Disconnected,
          known_networks := [{ ssid := "HomeNet", signal_strength := 70,
                               security := "WPA2", is_known := true }],
          available_networks := [] } none none none).known_networks =
      [{ ssid := "HomeNet", signal_strength := 70, security := "WPA2", is_known := true }] :=
  ((C1_failed_poll_defaults
      { current_workspace := 1, workspaces := [] }
      { connection_state := ConnectionState.Disconnected,
        known_networks := [{ ssid := "HomeNet", signal_strength := 70,
                             security := "WPA2", is_known := true }],
        available_networks := [] } none none).2.2.1 rfl (Or.inl (by decide))).1

/-- C2: the desktop-entry scan has no early exit, so with two matching
desktop files the icon taken is the one from the LAST matching file in
enumeration order, not the first as the claim states. -/
theorem C2_last_match_wins :
    IconCache.desktopSearch "foo" "foo"
        [some ["Name=foo", "Icon=A"], some ["Name=foo", "Icon=B"]] = some "B" := by
  decide

/-- C7: `load_svg`/`load_png` return `none` exactly on read/decode failure
and otherwise a 24×24 RGBA8 canvas; the vector transform scales uniformly by
min(24/w, 24/h) and centers the artwork; the raster path resamples to exactly
24×24 with the Lanczos3 (non-nearest) filter. -/
theorem C7_rasterize_shape (svgIn : Option (Option SvgTree)) (pngIn : Option RasterImage) :
    (∀ r, IconCache.load_svg svgIn = some r →
      r.canvasWidth = 24 ∧ r.canvasHeight = 24 ∧ r.format = PixelFormat.RGBA8 ∧
      ∀ t, svgIn = some (some t) →
        r.scale = min (24 / t.width) (24 / t.height) ∧
        2 * r.translateX + t.width * r.scale = 24 ∧
        2 * r.translateY + t.height * r.scale = 24) ∧
    (∀ t, svgIn = some (some t) → (IconCache.load_svg svgIn).isSome) ∧
    IconCache.load_svg none = none ∧ IconCache.load_svg (some none) = none ∧
    (∀ r, IconCache.load_png pngIn = some r →
      r.width = 24 ∧ r.height = 24 ∧ r.format = PixelFormat.RGBA8 ∧
      r.filter = FilterType.Lanczos3 ∧ r.filter ≠ FilterType.Nearest) ∧
    (∀ img, pngIn = some img → (IconCache.load_png pngIn).isSome) ∧
    IconCache.load_png none = none := by
  refine ⟨?_, ?_, rfl, rfl, ?_, ?_, rfl⟩
  · intro r hr
    match svgIn with
    | none => simp [IconCache.load_svg] at hr
    | some none => simp [IconCache.load_svg] at hr
    | some (some t) =>
      simp only [IconCache.load_svg, IconCache.pixmapNew] at hr
      norm_num at hr
      refine hr ▸ ⟨rfl, rfl, rfl, ?_⟩
      rintro t' ⟨rfl⟩
      refine ⟨rfl, ?_, ?_⟩ <;> ring
  · rintro t rfl
    simp [IconCache.load_svg, IconCache.pixmapNew]
  · intro r hr
    match pngIn with
    | none => simp [IconCache.load_png] at hr
    | some img =>
      simp only [IconCache.load_png, IconCache.resize_exact, Option.some.injEq] at hr
      subst hr
      refine ⟨rfl, rfl, rfl, rfl, by decide⟩
  · rintro img rfl
    simp [IconCache.load_png]

/-- C7 witness: a successfully parsed 48×12 vector source rasterizes to
`some` output (to a 24×24 canvas by the theorem). -/
theorem C7_rasterize_shape_witness :
    (IconCache.load_svg (some (some { width := 48, height := 12 }))).isSome = true :=
  (C7_rasterize_shape (some (some { width := 48, height := 12 })) none).2.1
    { width := 48, height := 12 } rfl

/-- C8: after a successful poll the stored collection is a permutation of the
queried workspaces sorted (strictly, given distinct ids) ascending by id;
the spec's example `[{2,"II"},{1,"I"}]` sorts to `[{1,"I"},{2,"II"}]`. -/
theorem C8_sorted_workspaces (l : List Workspace)
    (h : (l.map Workspace.id).Nodup) :
    List.Pairwise (fun a b => a.id < b.id) (WorkspaceSwitcher.get_workspaces (some l)) ∧
    (WorkspaceSwitcher.get_workspaces (some l)).Perm l ∧
    (∀ st : SwitcherState, ∀ cur : Option Workspace,
      (WorkspaceSwitcher.update st (some l) cur).workspaces =
        WorkspaceSwitcher.get_workspaces (some l)) ∧
    WorkspaceSwitcher.get_workspaces (some [{ id := 2, name := "II" }, { id := 1, name := "I" }]) =
      [{ id := 1, name := "I" }, { id := 2, name := "II" }] := by
  have hp : (List.insertionSort wsLE l).Perm l := List.perm_insertionSort wsLE l
  refine ⟨?_, hp, fun _ _ => rfl, by decide⟩
  have hs : List.Sorted wsLE (List.insertionSort wsLE l) := List.sorted_insertionSort wsLE l
  have hn : ((List.insertionSort wsLE l).map Workspace.id).Nodup :=
    ((hp.map Workspace.id).nodup_iff).mpr h
  have hne : List.Pairwise (fun a b : Workspace => a.id ≠ b.id) (List.insertionSort wsLE l) :=
    List.pairwise_map.mp hn
  exact (List.Pairwise.and hs hne).imp fun hab => lt_of_le_of_ne hab.1 hab.2

/-- C8 witness: the theorem at the spec's example input. -/
theorem C8_sorted_workspaces_witness :
    List.Pairwise (fun a b => a.id < b.id)
      (WorkspaceSwitcher.get_workspaces
        (some [{ id := 2, name := "II" }, { id := 1, name := "I" }])) :=
  (C8_sorted_workspaces [{ id := 2, name := "II" }, { id := 1, name := "I" }] (by decide)).1

/-- C3: no record with signal strength 0 ever appears in the merged display
list; a zero-signal record in the known-profile list stays there (`show`
reads the lists without modifying them) and is only hidden from display. -/
theorem C3_no_zero_signal_shown (st : NetworkState) (n : WifiNetwork) :
    (∀ b, (n, b) ∈ NetworkWidget.networksToShow st → n.signal_strength ≠ 0) ∧
    (n ∈ st.known_networks → n.signal_strength = 0 →
      n ∈ st.known_networks ∧ ∀ b, (n, b) ∉ NetworkWidget.networksToShow st) := by
  constructor
  · intro b hmem
    have hpos : (0 : Int) < n.signal_strength := mem_networksToShow_pos hmem
    exact ne_of_gt hpos
  · intro hk hz
    refine ⟨hk, fun b hmem => ?_⟩
    have hpos : (0 : Int) < n.signal_strength := mem_networksToShow_pos hmem
    rw [hz] at hpos
    exact lt_irrefl 0 hpos

/-- C3 witness: a zero-signal saved profile (the spec's `OldNet:0` scenario)
stays in the known list and is absent from the display list. -/
theorem C3_no_zero_signal_shown_witness :
    ({ ssid := "OldNet", signal_strength := 0, security := "", is_known := true }
        : WifiNetwork) ∈
      ({ connection_state := ConnectionState.Disconnected,
         known_networks := [{ ssid := "OldNet", signal_strength := 0,
                              security := "", is_known := true }],
         available_networks := [] } : NetworkState).known_networks ∧
    ∀ b, ({ ssid := "OldNet", signal_strength := 0, security := "", is_known := true }, b) ∉
      NetworkWidget.networksToShow
        { connection_state := ConnectionState.Disconnected,
          known_networks := [{ ssid := "OldNet", signal_strength := 0,
                               security := "", is_known := true }],
          available_networks := [] } :=
  (C3_no_zero_signal_shown
      { connection_state := ConnectionState.Disconnected,
        known_networks := [{ ssid := "OldNet", signal_strength := 0,
                             security := "", is_known := true }],
        available_networks := [] }
      { ssid := "OldNet", signal_strength := 0, security := "", is_known := true }).2
    (by decide) rfl

/-- C10: a scanned row with at least four fields whose SIGNAL field does not
parse keeps its record with signal 0 (updating the known profile or joining
the available list), such zero-signal records are never displayed, and rows
with fewer than four fields leave the state unchanged. -/
theorem C10_unparsed_signal_zero (known available : List WifiNetwork) (line : String)
    (hlen : 4 ≤ (splitChar line ':').length)
    (hsig : parseI32 ((splitChar line ':').getD 1 "") = none)
    (hssid : ((splitChar line ':').getD 0 "").isEmpty = false) :
    (NetworkWidget.scanStep (known, available) line =
      if known.any (fun n => n.ssid == (splitChar line ':').getD 0 "") then
        (NetworkWidget.updateFirst known ((splitChar line ':').getD 0 "") 0
          ((splitChar line ':').getD 2 ""), available)
      else
        (known, available ++ [{ ssid := (splitChar line ':').getD 0 "",
                                signal_strength := 0,
                                security := (splitChar line ':').getD 2 "",
                                is_known := false }])) ∧
    (∀ st : NetworkState, ∀ m : WifiNetwork, ∀ b : Bool,
      m.signal_strength = 0 → (m, b) ∉ NetworkWidget.networksToShow st) ∧
    (∀ st₂ : List WifiNetwork × List WifiNetwork, ∀ line₂ : String,
      (splitChar line₂ ':').length < 4 → NetworkWidget.scanStep st₂ line₂ = st₂) := by
  refine ⟨?_, ?_, ?_⟩
  · simp only [NetworkWidget.scanStep]
    rw [if_pos hlen, hssid, hsig]
    simp
  · intro st m b hz hmem
    have hpos : (0 : Int) < m.signal_strength := mem_networksToShow_pos hmem
    rw [hz] at hpos
    exact lt_irrefl 0 hpos
  · intro st₂ line₂ hlt
    simp only [NetworkWidget.scanStep]
    rw [if_neg (by omega)]

/-- C10 witness: row `Net:abc:WPA2:no` (unparseable SIGNAL) yields an
available record with signal 0, which the display list never contains. -/
theorem C10_unparsed_signal_zero_witness :
    ({ ssid := "Net", signal_strength := 0, security := "WPA2", is_known := false }, true) ∉
      NetworkWidget.networksToShow
        { connection_state := ConnectionState.Disconnected,
          known_networks := [],
          available_networks := [{ ssid := "Net", signal_strength := 0,
                                   security := "WPA2", is_known := false }] } :=
  (C10_unparsed_signal_zero [] [] "Net:abc:WPA2:no" (by decide) (by decide) (by decide)).2.1
    { connection_state := ConnectionState.Disconnected,
      known_networks := [],
      available_networks := [{ ssid := "Net", signal_strength := 0,
                               security := "WPA2", is_known := false }] }
    { ssid := "Net", signal_strength := 0, security := "WPA2", is_known := false } true rfl

/-- C4: with an active connection whose record exists with positive signal in
the known or available list, the display list starts with a connected-flagged
record with that ssid and positive signal drawn from those lists, and the
connected ssid occurs exactly once in the display list. -/
theorem C4_connected_first (st : NetworkState) (c : String) (n : WifiNetwork)
    (hconn : st.connection_state = ConnectionState.Connected c)
    (hmem : n ∈ st.known_networks ∨ n ∈ st.available_networks)
    (hssid : n.ssid = c) (hsig : 0 < n.signal_strength) :
    (∃ m, (NetworkWidget.networksToShow st).head? = some (m, true) ∧
      m.ssid = c ∧ 0 < m.signal_strength ∧
      (m ∈ st.known_networks ∨ m ∈ st.available_networks)) ∧
    List.countP (fun p => p.1.ssid == c) (NetworkWidget.networksToShow st) = 1 := by
  have hcur : NetworkWidget.currentNetworkOf st.connection_state = some c := by
    rw [hconn]; rfl
  have hpredn : (n.ssid == c && decide (0 < n.signal_strength)) = true := by
    simp [hssid, hsig]
  have hpick : ∃ m, NetworkWidget.connectedPick st c = some m := by
    unfold NetworkWidget.connectedPick
    cases hk : st.known_networks.find?
        (fun m => m.ssid == c && decide (0 < m.signal_strength)) with
    | some m => exact ⟨m, rfl⟩
    | none =>
      rcases hmem with hknown | havail
      · exfalso
        have hnone : (st.known_networks.find?
            (fun m => m.ssid == c && decide (0 < m.signal_strength))).isSome := by
          rw [List.find?_isSome]
          exact ⟨n, hknown, hpredn⟩
        rw [hk] at hnone
        exact Bool.false_ne_true hnone
      · have hsome : (st.available_networks.find?
            (fun m => m.ssid == c && decide (0 < m.signal_strength))).isSome := by
          rw [List.find?_isSome]
          exact ⟨n, havail, hpredn⟩
        exact Option.isSome_iff_exists.mp hsome
  rcases hpick with ⟨m, hm⟩
  have hhead : NetworkWidget.connectedHead st = [(m, true)] := by
    unfold NetworkWidget.connectedHead
    simp only [hcur, hm]
  rcases connectedPick_spec hm with ⟨hmmem, hmssid, hmsig⟩
  constructor
  · refine ⟨m, ?_, hmssid, hmsig, hmmem⟩
    unfold NetworkWidget.networksToShow
    rw [hhead]
    rfl
  · unfold NetworkWidget.networksToShow
    rw [hhead, hcur, List.countP_append, List.countP_append,
      countP_displayFilter_connected, countP_displayFilter_connected]
    simp [List.countP_cons, hmssid]

/-- C4 witness: connected to `HomeNet` (known, signal 80) with `Guest`
available, `HomeNet` heads the display list and appears exactly once. -/
theorem C4_connected_first_witness :
    (∃ m, (NetworkWidget.networksToShow
        { connection_state := ConnectionState.Connected "HomeNet",
          known_networks := [{ ssid := "HomeNet", signal_strength := 80,
                               security := "WPA2", is_known := true }],
          available_networks := [{ ssid := "Guest", signal_strength := 40,
                                   security := "--", is_known := false }] }).head? =
          some (m, true) ∧
      m.ssid = "HomeNet" ∧ 0 < m.signal_strength ∧
      (m ∈ ({ connection_state := ConnectionState.Connected "HomeNet",
              known_networks := [{ ssid := "HomeNet", signal_strength := 80,
                                   security := "WPA2", is_known := true }],
              available_networks := [{ ssid := "Guest", signal_strength := 40,
                                       security := "--", is_known := false }] }
            : NetworkState).known_networks ∨
       m ∈ ({ connection_state := ConnectionState.Connected "HomeNet",
              known_networks := [{ ssid := "HomeNet", signal_strength := 80,
                                   security := "WPA2", is_known := true }],
              available_networks := [{ ssid := "Guest", signal_strength := 40,
                                       security := "--", is_known := false }] }
            : NetworkState).available_networks)) ∧
    List.countP (fun p => p.1.ssid == "HomeNet")
      (NetworkWidget.networksToShow
        { connection_state := ConnectionState.Connected "HomeNet",
          known_networks := [{ ssid := "HomeNet", signal_strength := 80,
                               security := "WPA2", is_known := true }],
          available_networks := [{ ssid := "Guest", signal_strength := 40,
                                   security := "--", is_known := false }] }) = 1 :=
  C4_connected_first
    { connection_state := ConnectionState.Connected "HomeNet",
      known_networks := [{ ssid := "HomeNet", signal_strength := 80,
                           security := "WPA2", is_known := true }],
      available_networks := [{ ssid := "Guest", signal_strength := 40,
                               security := "--", is_known := false }] }
    "HomeNet"
    { ssid := "HomeNet", signal_strength := 80, security := "WPA2", is_known := true }
    rfl (Or.inl (by decide)) rfl (by decide)

/-- C5: the merge queries known and scanned networks independently; scanned
records matching a known ssid update that profile and never reach the
available list (every available record has a non-empty ssid, is flagged
unknown, and matches no known-list ssid); both outputs are sorted descending
by signal; the spec's `HomeNet`/`Guest` example evaluates as stated. -/
theorem C5_merge_networks (kOut sOut : Option (List String)) :
    List.Sorted sigGE (NetworkWidget.get_networks kOut sOut).1 ∧
    List.Sorted sigGE (NetworkWidget.get_networks kOut sOut).2 ∧
    (∀ m ∈ (NetworkWidget.get_networks kOut sOut).2,
      m.ssid ≠ "" ∧ m.is_known = false ∧
      ∀ k ∈ (NetworkWidget.get_networks kOut sOut).1, k.ssid ≠ m.ssid) ∧
    (∀ known available : List WifiNetwork, ∀ line : String,
      4 ≤ (splitChar line ':').length →
      ((splitChar line ':').getD 0 "").isEmpty = true →
      NetworkWidget.scanStep (known, available) line = (known, available)) ∧
    (∀ known available : List WifiNetwork, ∀ line : String,
      4 ≤ (splitChar line ':').length →
      ((splitChar line ':').getD 0 "").isEmpty = false →
      (known.any fun n => n.ssid == (splitChar line ':').getD 0 "") = true →
      NetworkWidget.scanStep (known, available) line =
        (NetworkWidget.updateFirst known ((splitChar line ':').getD 0 "")
          ((parseI32 ((splitChar line ':').getD 1 "")).getD 0)
          ((splitChar line ':').getD 2 ""), available)) ∧
    NetworkWidget.get_current_network (some ["yes:HomeNet:80"]) = some "HomeNet" ∧
    NetworkWidget.get_networks (some ["HomeNet:uuid"])
        (some ["HomeNet:80:WPA2:yes", "Guest:40:--:no"]) =
      ([{ ssid := "HomeNet", signal_strength := 80, security := "WPA2", is_known := true }],
       [{ ssid := "Guest", signal_strength := 40, security := "--", is_known := false }]) := by
  refine ⟨?_, ?_, ?_, ?_, ?_, by decide, by decide⟩
  · simp only [NetworkWidget.get_networks]
    exact List.sorted_insertionSort sigGE _
  · simp only [NetworkWidget.get_networks]
    exact List.sorted_insertionSort sigGE _
  · simp only [NetworkWidget.get_networks]
    intro m hm
    rw [List.mem_insertionSort] at hm
    cases kOut with
    | none =>
      cases sOut with
      | none => simp at hm
      | some ls =>
        have hInv := foldl_scanStep_availInv ls [] [] (by intro m' hm'; cases hm')
        rcases hInv m hm with ⟨h1, h2, h3⟩
        refine ⟨h1, h2, ?_⟩
        intro k hk
        rw [List.mem_insertionSort] at hk
        exact h3 k hk
    | some ks =>
      cases sOut with
      | none => simp at hm
      | some ls =>
        have hInv := foldl_scanStep_availInv ls (NetworkWidget.knownFromLines ks) []
          (by intro m' hm'; cases hm')
        rcases hInv m hm with ⟨h1, h2, h3⟩
        refine ⟨h1, h2, ?_⟩
        intro k hk
        rw [List.mem_insertionSort] at hk
        exact h3 k hk
  · intro known available line hlen hempty
    simp only [NetworkWidget.scanStep]
    rw [if_pos hlen, if_pos hempty]
  · intro known available line hlen hempty hmatch
    simp only [NetworkWidget.scanStep]
    rw [if_pos hlen]
    rw [hempty]
    simp only [Bool.false_eq_true, if_false]
    rw [if_pos hmatch]

/-- C5 witness: the invariant instantiated at the spec's example inputs for
the record `Guest` of the available list. -/
theorem C5_merge_networks_witness :
    ({ ssid := "Guest", signal_strength := 40, security := "--", is_known := false }
        : WifiNetwork).ssid ≠ "" ∧
    ({ ssid := "Guest", signal_strength := 40, security := "--", is_known := false }
        : WifiNetwork).is_known = false ∧
    ∀ k ∈ (NetworkWidget.get_networks (some ["HomeNet:uuid"])
        (some ["HomeNet:80:WPA2:yes", "Guest:40:--:no"])).1,
      k.ssid ≠ ({ ssid := "Guest", signal_strength := 40, security := "--",
                  is_known := false } : WifiNetwork).ssid :=
  (C5_merge_networks (some ["HomeNet:uuid"])
      (some ["HomeNet:80:WPA2:yes", "Guest:40:--:no"])).2.2.1
    { ssid := "Guest", signal_strength := 40, security := "--", is_known := false }
    (by decide)

/-- C9: when the connection identifier is unchanged and at least one list is
non-empty, `update` leaves the known/available lists untouched; equivalently
a full re-enumeration runs only when the identifier changed or both lists
are empty. -/
theorem C9_two_speed_refresh (st : NetworkState) (current : Option String)
    (kOut sOut : Option (List String))
    (hid : NetworkWidget.currentNetworkOf st.connection_state = current)
    (hne : st.known_networks ≠ [] ∨ st.available_networks ≠ []) :
    (NetworkWidget.update st current kOut sOut).known_networks = st.known_networks ∧
    (NetworkWidget.update st current kOut sOut).available_networks =
      st.available_networks := by
  unfold NetworkWidget.update
  have hchanged : NetworkWidget.connectionChanged st.connection_state current = false := by
    cases hcs : st.connection_state with
    | Disconnected =>
      rw [hcs] at hid
      simp only [NetworkWidget.currentNetworkOf] at hid
      rw [← hid]
      rfl
    | Connected old =>
      rw [hcs] at hid
      simp only [NetworkWidget.currentNetworkOf] at hid
      rw [← hid]
      simp [NetworkWidget.connectionChanged]
  have hfalse : (st.known_networks.isEmpty && st.available_networks.isEmpty) = false := by
    rcases hne with hk | ha
    · cases hknown : st.known_networks with
      | nil => exact absurd hknown hk
      | cons x xs => simp [hknown]
    · cases havail : st.available_networks with
      | nil => exact absurd havail ha
      | cons x xs => simp [havail]
  rw [hchanged, hfalse]
  simp

/-- C6, counterexample: with class `discord` and an existing Discord flatpak
path, the first lookup returns through the flatpak fast path WITHOUT storing
anything in the cache, so the second lookup performs environment accesses
again (2, not 0) — the claim that both outcomes are stored on the first
lookup and the second performs no probe or command invocation is false. -/
theorem C6_counterexample :
    ¬ ((IconCache.get_or_load IconCache.envDiscordFast
        (IconCache.get_or_load IconCache.envDiscordFast [] "discord").2.1
        "discord").2.2 = 0) := by
  decide

/-- C6, amended: for a fixed environment, two successive lookups of the same
class always return the same result; the outcome (positive or negative) is
stored on the first lookup exactly when control reaches the cache-insertion
point — i.e. not through the Discord-flatpak fast path and not through a
failing `find` pipeline — and for those stored lookups the second lookup hits
the cache and performs zero filesystem probes and command invocations. -/
theorem C6_cached_second_lookup (env : Env) (cache : List (String × Option Nat))
    (cls : String) (h : cache.lookup cls = none) :
    (IconCache.get_or_load env (IconCache.get_or_load env cache cls).2.1 cls).1 =
      (IconCache.get_or_load env cache cls).1 ∧
    ((IconCache.loadIcon env cls).2.2 = true →
      (IconCache.get_or_load env (IconCache.get_or_load env cache cls).2.1 cls).2.1 =
        (IconCache.get_or_load env cache cls).2.1 ∧
      (IconCache.get_or_load env (IconCache.get_or_load env cache cls).2.1 cls).2.2 = 0) := by
  have hfirst : IconCache.get_or_load env cache cls =
      ((IconCache.loadIcon env cls).1,
       if (IconCache.loadIcon env cls).2.2 then (cls, (IconCache.loadIcon env cls).1) :: cache
       else cache,
       (IconCache.loadIcon env cls).2.1) := by
    unfold IconCache.get_or_load
    rw [h]
  rw [hfirst]
  cases hstores : (IconCache.loadIcon env cls).2.2 with
  | true =>
    have hsecond : IconCache.get_or_load env
        ((cls, (IconCache.loadIcon env cls).1) :: cache) cls =
        ((IconCache.loadIcon env cls).1,
         (cls, (IconCache.loadIcon env cls).1) :: cache, 0) := by
      unfold IconCache.get_or_load
      simp [List.lookup]
    simp only [if_true]
    rw [hsecond]
    simp
  | false =>
    simp only [Bool.false_eq_true, if_false]
    rw [hfirst]
    simp

/-- C6 witness: the amended theorem at an empty cache and an environment with
no icons, where the first lookup runs the full pipeline and stores `none`. -/
theorem C6_cached_second_lookup_witness :
    (IconCache.get_or_load IconCache.envNoIcon
        (IconCache.get_or_load IconCache.envNoIcon [] "x").2.1 "x").1 =
      (IconCache.get_or_load IconCache.envNoIcon [] "x").1 ∧
    ((IconCache.loadIcon IconCache.envNoIcon "x").2.2 = true →
      (IconCache.get_or_load IconCache.envNoIcon
          (IconCache.get_or_load IconCache.envNoIcon [] "x").2.1 "x").2.1 =
        (IconCache.get_or_load IconCache.envNoIcon [] "x").2.1 ∧
      (IconCache.get_or_load IconCache.envNoIcon
          (IconCache.get_or_load IconCache.envNoIcon [] "x").2.1 "x").2.2 = 0) :=
  C6_cached_second_lookup IconCache.envNoIcon [] "x" rfl

/-- C9 witness: an unchanged disconnected state with a non-empty known list
keeps its lists across `update`. -/
theorem C9_two_speed_refresh_witness :
    (NetworkWidget.update
        { connection_state := ConnectionState.Disconnected,
          known_networks := [{ ssid := "HomeNet", signal_strength := 70,
                               security := "WPA2", is_known := true }],
          available_networks := [] } none (some []) (some [])).known_networks =
      [{ ssid := "HomeNet", signal_strength := 70, security := "WPA2", is_known := true }] :=
  (C9_two_speed_refresh
      { connection_state := ConnectionState.Disconnected,
        known_networks := [{ ssid := "HomeNet", signal_strength := 70,
                             security := "WPA2", is_known := true }],
        available_networks := [] } none (some []) (some []) rfl
      (Or.inl (by decide))).1

end Hypo
